import Mathlib

/-!
Verification of the heterogeneous-response reconciliation engine of the
tidaloader backend (src/backend/api/routers/search.py), against its
natural-language specification.

The Python code operates on decoded JSON values.  We embed such values as the
inductive type `Json` below and translate each relevant router function into a
Lean function over `Json`.  Python semantics that matter here are modelled
explicitly:

* truthiness (`pyTruthy`), the `or` operator (`pyOr`),
* `dict.get` with a default (an `AttributeError` on a non-dict receiver is an
  exception, modelled by `Except Unit`),
* subscription `d[k]` (`KeyError` / `TypeError` modelled as exceptions),
* `str()` of scalar values (`pyStr`; no modelled code path applies `str()` to
  a list or dict value — identifiers are scalars in every payload shape the
  routers read),
* `str.strip()`, `str.split('-')[0]`, `int(...)` over strings,
* `list.sort(key=..., reverse=True)`, which is a stable sort (modelled by a
  stable insertion sort into descending order).

Numbers are modelled as `Int` (the payload fields the routers touch — ids,
durations, track numbers, years — are integers in the source API).
-/

/-- A decoded JSON / Python value.  Objects are ordered key-value lists
(Python dicts preserve insertion order). -/
inductive Json where
  | null : Json
  | bool : Bool → Json
  | num : Int → Json
  | str : String → Json
  | arr : List Json → Json
  | obj : List (String × Json) → Json
deriving Repr, Inhabited

namespace Json

/-- Python truthiness of a value. -/
def pyTruthy : Json → Bool
  | .null => false
  | .bool b => b
  | .num n => n ≠ 0
  | .str s => s ≠ ""
  | .arr xs => ¬ xs.isEmpty
  | .obj kvs => ¬ kvs.isEmpty

/-- Python `a or b`: the first operand when truthy, else the second. -/
def pyOr (a b : Json) : Json := if a.pyTruthy then a else b

/-- First value bound to `k` in an ordered key-value list (Python dict keys
are unique, so first match is the binding). -/
def lookupKV (kvs : List (String × Json)) (k : String) : Option Json :=
  match kvs with
  | [] => none
  | (k', v) :: rest => if k' = k then some v else lookupKV rest k

/-- Python `k in d` for a dict receiver. -/
def hasKey (j : Json) (k : String) : Bool :=
  match j with
  | .obj kvs => (lookupKV kvs k).isSome
  | _ => false

/-- Python `d.get(k, dflt)`: `AttributeError` (modelled as `.error ()`) when
the receiver is not a dict. -/
def dictGet (j : Json) (k : String) (dflt : Json) : Except Unit Json :=
  match j with
  | .obj kvs => .ok ((lookupKV kvs k).getD dflt)
  | _ => .error ()

/-- Total variant of `d.get(k, dflt)` for receivers already known to be
dicts; yields the default on a non-dict receiver (used only where the source
guards with `isinstance(x, dict)` or supplies a dict). -/
def getD (j : Json) (k : String) (dflt : Json) : Json :=
  match j with
  | .obj kvs => (lookupKV kvs k).getD dflt
  | _ => dflt

/-- Python `d[k]` on a dict: `KeyError` when absent, `TypeError` on a
non-dict receiver; both modelled as `.error ()`. -/
def subscr (j : Json) (k : String) : Except Unit Json :=
  match j with
  | .obj kvs =>
    match lookupKV kvs k with
    | some v => .ok v
    | none => .error ()
  | _ => .error ()

/-- Python `xs[0]`: first element of a list, first character of a string
(as a 1-character string); an error (`IndexError`/`KeyError`/`TypeError`)
otherwise.  (`d[0]` on a dict is a `KeyError` here since our keys are
strings.) -/
def index0 : Json → Except Unit Json
  | .arr (x :: _) => .ok x
  | .arr [] => .error ()
  | .str s =>
    match s.data with
    | c :: _ => .ok (.str (String.mk [c]))
    | [] => .error ()
  | _ => .error ()

/-- Python iteration `for x in j`: list elements; characters of a string
(as 1-character strings); keys of a dict; `TypeError` otherwise. -/
def iterList : Json → Except Unit (List Json)
  | .arr xs => .ok xs
  | .str s => .ok (s.data.map (fun c => .str (String.mk [c])))
  | .obj kvs => .ok (kvs.map (fun kv => .str kv.1))
  | _ => .error ()

/-- Python `str()` of a value.  Composite values never reach `str()` in the
modelled code paths (identifiers and cover tokens are scalars), so their
rendering is left as the empty string. -/
def pyStr : Json → String
  | .null => "None"
  | .bool b => if b then "True" else "False"
  | .num n => toString n
  | .str s => s
  | .arr _ => ""
  | .obj _ => ""

/-- Helper of `setKey`: replace the binding of `k` in place, or append. -/
def setKeyGo (k : String) (v : Json) : List (String × Json) → List (String × Json)
  | [] => [(k, v)]
  | (k', v') :: rest => if k' = k then (k, v) :: rest else (k', v') :: setKeyGo k v rest

/-- Python dict assignment `d[k] = v`: replaces the value in place when the
key exists, appends a new binding otherwise (insertion-order semantics). -/
def setKey (j : Json) (k : String) (v : Json) : Json :=
  match j with
  | .obj kvs => .obj (setKeyGo k v kvs)
  | other => other

/-- `isinstance(j, dict)`. -/
def isObj : Json → Bool
  | .obj _ => true
  | _ => false

/-- `isinstance(j, list)`. -/
def isArr : Json → Bool
  | .arr _ => true
  | _ => false

/-- Is `needle` an initial segment of `l`? -/
def chListStarts (needle l : List Char) : Bool :=
  match needle, l with
  | [], _ => true
  | _ :: _, [] => false
  | c :: cs, d :: ds => c = d ∧ chListStarts cs ds

/-- Is `needle` a contiguous segment of `l`? -/
def chListInside (needle l : List Char) : Bool :=
  match l with
  | [] => needle.isEmpty
  | _ :: rest => chListStarts needle l ∨ chListInside needle rest

/-- Python `k in j` for a string key: key membership for a dict, substring
test for a string, element equality for a list, `TypeError` otherwise. -/
def keyIn (j : Json) (k : String) : Except Unit Bool :=
  match j with
  | .obj kvs => .ok (lookupKV kvs k).isSome
  | .str s => .ok (chListInside k.data s.data)
  | .arr xs =>
    .ok (xs.any (fun x => match x with | .str s => s = k | _ => false))
  | _ => .error ()

end Json

/-- ASCII whitespace, as stripped by Python `str.strip()` / accepted around
`int(...)` literals.  (Python also strips some unicode whitespace; no input
in this development uses it.) -/
def isPySpace (c : Char) : Bool :=
  c = ' ' ∨ c = '\t' ∨ c = '\n' ∨ c = '\r'

/-- Surrounding-whitespace removal over a character list. -/
def trimChars (cs : List Char) : List Char :=
  ((cs.dropWhile isPySpace).reverse.dropWhile isPySpace).reverse

/-- Python `int(s)` over a string: optional surrounding whitespace, optional
sign, one or more ASCII digits; `none` models a `ValueError`.  (Underscore
separators and non-ASCII digits are not modelled; no claim input uses
them.) -/
def pyIntOfStr (s : String) : Option Int :=
  let t := trimChars s.data
  let signed : Bool × List Char :=
    match t with
    | '-' :: rest => (true, rest)
    | '+' :: rest => (false, rest)
    | rest => (false, rest)
  let ds := signed.2
  if ds.isEmpty ∨ ¬ ds.all Char.isDigit then none
  else
    let n : Nat := ds.foldl (fun acc c => acc * 10 + (c.toNat - '0'.toNat)) 0
    some (if signed.1 then -(n : Int) else (n : Int))

/-- Python `s.split('-')[0]`: the prefix of `s` before the first dash. -/
def splitDashHead (s : String) : String :=
  String.mk (s.data.takeWhile (fun c => c ≠ '-'))

/-- Python `s.split('-')[0]` applied to an arbitrary value: a `TypeError`
(modelled as `.error ()`) when the receiver is not a string. -/
def pySplitDashHead : Json → Except Unit String
  | .str s => .ok (splitDashHead s)
  | _ => .error ()

/-- Python `str.strip()` (surrounding whitespace removed). -/
def pyStrip (s : String) : String := String.mk (trimChars s.data)


/-! ## Item extraction

`search.py` imports `extract_items` from `api.utils.extraction`; that module
is not part of the sources under verification, so it is modelled from the
specification (§4.1–§4.2). -/

/-- One unwrapping step of a `{data: ..., version: ...}` envelope, iterated
with fuel (the spec requires re-classification after unwrapping). -/
def unwrapEnvelopeFuel : Nat → Json → Json
  | 0, j => j
  | fuel + 1, j =>
    match j with
    | .obj kvs =>
      if (Json.lookupKV kvs "data").isSome ∧ (Json.lookupKV kvs "version").isSome then
        unwrapEnvelopeFuel fuel ((Json.lookupKV kvs "data").getD .null)
      else .obj kvs
    | other => other

mutual

/-- Computable structural size of a `Json` value (the derived `sizeOf` of a
nested inductive has no executable code). -/
def Json.jsize : Json → Nat
  | .null => 1
  | .bool _ => 1
  | .num _ => 1
  | .str _ => 1
  | .arr xs => 1 + Json.jsizeList xs
  | .obj kvs => 1 + Json.jsizeKVs kvs

/-- Size of a list of `Json` values. -/
def Json.jsizeList : List Json → Nat
  | [] => 0
  | x :: xs => 1 + Json.jsize x + Json.jsizeList xs

/-- Size of a key-value list. -/
def Json.jsizeKVs : List (String × Json) → Nat
  | [] => 0
  | (_, v) :: rest => 1 + Json.jsize v + Json.jsizeKVs rest

end

/-- Fully unwrap version envelopes (the structural size strictly shrinks at
each step, so `jsize j` steps of fuel always suffice). -/
def unwrapEnvelope (j : Json) : Json := unwrapEnvelopeFuel j.jsize j

/-- Unwrap a `{item: ..., type: ...}` wrapper object, per spec §4.2. -/
def unwrapItemWrapper (it : Json) : Json :=
  if it.hasKey "item" ∧ it.hasKey "type" then it.getD "item" .null else it

/-- A non-empty list at a candidate container position, if any. -/
def nonEmptyList (j : Json) : Option (List Json) :=
  match j with
  | .arr (x :: xs) => some (x :: xs)
  | _ => none

/-- Modelled from the spec: `extract_items`, imported by `search.py` from
`api.utils.extraction`, is absent from the verified sources.  Per §4.1–§4.2:
unwrap `{data, version}` envelopes re-entrantly; a top-level sequence is
taken directly (`DirectList`); otherwise the known container paths for the
entity kind are tried in order — `items`, `<kind>.items`, `<kind>` as a
direct list, `data` as a direct list — accepting the first that yields a
non-empty sequence, with absence of all paths yielding the empty sequence;
finally each extracted item is unwrapped if it has the
`{item: ..., type: ...}` wrapper shape. -/
def extract_items (result : Json) (kind : String) : List Json :=
  let r := unwrapEnvelope result
  let base : List Json :=
    match r with
    | .arr xs => xs
    | _ =>
      ((nonEmptyList (r.getD "items" .null)).orElse (fun _ =>
        (nonEmptyList ((r.getD kind .null).getD "items" .null)).orElse (fun _ =>
          (nonEmptyList (r.getD kind .null)).orElse (fun _ =>
            nonEmptyList (r.getD "data" .null))))).getD []
  base.map unwrapItemWrapper

/-! ## Canonical result records

Pydantic models (`TrackSearchResult`, `PlaylistSearchResult`) are embedded as
records of raw `Json` field values; pydantic's type validation/coercion layer
is outside the reconciliation logic under verification. -/

/-- The fields of `TrackSearchResult` as populated by the routers. -/
structure TrackRes where
  id : Json
  title : Json
  artist : Json
  album : Json
  track_number : Json
  duration : Json
  cover : Json
  quality : Json
  trackNumber : Json
  albumArtist : Json
  tidal_artist_id : Json
  tidal_album_id : Json
deriving Repr

/-- The fields of `PlaylistSearchResult` as populated by `search_playlists`. -/
structure PlaylistRes where
  id : Json
  title : Json
  creator : Json
  description : Json
  numberOfTracks : Json
  cover : Json
deriving Repr

/-! ## `search_tracks` (search.py lines 10–48) -/

/-- The artist-name expression of `search_tracks` (line 31):
`track.get('artist', {}).get('name', 'Unknown')` — no `artists`-list
fallback exists on this path. -/
def searchTrackArtist (track : Json) : Except Unit Json := do
  let artistObj ← track.dictGet "artist" (.obj [])
  artistObj.dictGet "name" (.str "Unknown")

/-- The `TrackSearchResult(...)` construction of `search_tracks`
(lines 28–40), one raw extracted track at a time.  `track['id']` is a
`KeyError` when `id` is absent; `.get` on a non-dict receiver is an
`AttributeError`; both abort the whole request (modelled as `.error ()`). -/
def mkSearchTrack (track : Json) : Except Unit TrackRes := do
  let idv ← track.subscr "id"
  let title ← track.subscr "title"
  let artistObj ← track.dictGet "artist" (.obj [])
  let artist ← searchTrackArtist track
  let albumObj ← track.dictGet "album" (.obj [])
  let album ← albumObj.dictGet "title" .null
  let duration ← track.dictGet "duration" .null
  let cover ← albumObj.dictGet "cover" .null
  let quality ← track.dictGet "audioQuality" .null
  let trackNumber ← track.dictGet "trackNumber" .null
  let albumArtistCond ← albumObj.dictGet "artist" .null
  let albumArtist ←
    if albumArtistCond.pyTruthy then do
      let a ← albumObj.dictGet "artist" (.obj [])
      a.dictGet "name" .null
    else
      artistObj.dictGet "name" (.str "Unknown")
  let tidalArtistId ← artistObj.dictGet "id" .null
  let tidalAlbumId ← albumObj.dictGet "id" .null
  pure ⟨idv, title, artist, album, .null, duration, cover, quality,
        trackNumber, albumArtist, tidalArtistId, tidalAlbumId⟩

/-- The `items` list computed by the `search_tracks` endpoint: empty on a
falsy payload, else the comprehension over `extract_items(result, 'tracks')`.
An exception from any single item aborts the whole request (the router's
`except` clause turns it into an HTTP 500). -/
def searchTracksItems (result : Json) : Except Unit (List TrackRes) :=
  if ¬ result.pyTruthy then .ok []
  else (extract_items result "tracks").mapM mkSearchTrack

/-! ## `get_cover_id` (search.py lines 109–149) -/

/-- The priority key order of the cover resolver:
`['squareImage', 'image', 'cover', 'picture', 'imageId']`. -/
def priorityKeys : List String := ["squareImage", "image", "cover", "picture", "imageId"]

/-- Tier 1 of `get_cover_id` (lines 115–118): first truthy `attrs.get(key)`
over the priority keys, returned as `str(val).strip()`.  `attrs` may be a
non-dict (a non-dict `attributes` value), in which case `.get` raises. -/
def attrTierGo (attrs : Json) : List String → Except Unit (Option Json)
  | [] => .ok none
  | k :: ks => do
    let val ← attrs.dictGet k .null
    if val.pyTruthy then pure (some (.str (pyStrip val.pyStr)))
    else attrTierGo attrs ks

/-- Tier 1 over the full priority key list. -/
def attrTier (attrs : Json) : Except Unit (Option Json) := attrTierGo attrs priorityKeys

/-- Tier 2 of `get_cover_id` (lines 121–123): first priority key with
`key in pl and pl.get(key)` truthy, returned as `str(...).strip()`. -/
def rootTierGo (pl : Json) : List String → Except Unit (Option Json)
  | [] => .ok none
  | k :: ks => do
    let present ← pl.keyIn k
    if present then do
      let val ← pl.dictGet k .null
      if val.pyTruthy then pure (some (.str (pyStrip val.pyStr)))
      else rootTierGo pl ks
    else rootTierGo pl ks

/-- Tier 2 over the full priority key list. -/
def rootTier (pl : Json) : Except Unit (Option Json) := rootTierGo pl priorityKeys

/-- Inner `for file in files` loop (lines 141–145): first truthy `href`
wins, otherwise the raw `cover_id` is returned. -/
def hrefLoop (coverId : Json) : List Json → Except Unit (Option Json)
  | [] => pure (some coverId)
  | f :: fs => do
    let href ← f.dictGet "href" .null
    if href.pyTruthy then pure (some href) else hrefLoop coverId fs

/-- `for inc in included` scan (lines 137–146): the first sideloaded
resource whose stringified `id` equals the stringified `cover_id` is
consulted for a `files` list; no match returns the raw `cover_id`. -/
def relScanGo (coverId : Json) : List Json → Except Unit (Option Json)
  | [] => pure (some coverId)
  | inc :: rest => do
    let incId ← inc.dictGet "id" .null
    if incId.pyStr = coverId.pyStr then do
      let attrsInc := if inc.isObj then inc.getD "attributes" (.obj []) else .obj []
      let files ← attrsInc.dictGet "files" .null
      let fl ← (files.pyOr (.arr [])).iterList
      hrefLoop coverId fl
    else relScanGo coverId rest

/-- The body of the `try` block of tier 3 (lines 126–146), before exception
absorption: resolve `relationships.coverArt` (or `coverart`/`thumbnailArt`),
take the reference id from a single reference object or the head of a
reference list, and look it up among the sideloaded resources. -/
def relTierE (pl : Json) (included : Json) : Except Unit (Option Json) := do
  let rel := if pl.isObj then pl.getD "relationships" (.obj []) else .obj []
  let ca ← rel.dictGet "coverArt" .null
  let coverRel ←
    if ca.pyTruthy then pure ca
    else do
      let ca2 ← rel.dictGet "coverart" .null
      if ca2.pyTruthy then pure ca2 else rel.dictGet "thumbnailArt" .null
  let coverData := if coverRel.isObj then coverRel.getD "data" .null else .null
  let coverId ←
    match coverData with
    | .obj kvs => pure ((Json.lookupKV kvs "id").getD .null)
    | .arr (x :: _) => x.dictGet "id" .null
    | _ => pure .null
  if coverId.pyTruthy then do
    let incs ← included.iterList
    relScanGo coverId incs
  else pure none

/-- Tier 3 with the source's `try/except: pass` wrapper: any exception inside
the relationship resolution yields `None` instead of propagating. -/
def relTier (pl : Json) (included : Json) : Option Json :=
  match relTierE pl included with
  | .ok o => o
  | .error _ => none

/-- `attrs = pl.get('attributes', {}) if isinstance(pl, dict) else {}`
(line 114). -/
def attrsOfPl (pl : Json) : Json :=
  if pl.isObj then pl.getD "attributes" (.obj []) else .obj []

/-- `get_cover_id(pl)` (lines 109–149), closed over the endpoint's
`included` value: attribute tier, then root-key tier, then the
exception-absorbed relationship tier. -/
def get_cover_id (pl : Json) (included : Json) : Except Unit (Option Json) := do
  let t1 ← attrTier (attrsOfPl pl)
  match t1 with
  | some v => pure (some v)
  | none => do
    let t2 ← rootTier pl
    match t2 with
    | some v => pure (some v)
    | none => pure (relTier pl included)

/-! ## `search_playlists` (search.py lines 95–169) -/

/-- The `PlaylistSearchResult(...)` construction (lines 153–160) for one
playlist item that passed the identity filter. -/
def mkPlaylistRes (included : Json) (pl : Json) : Except Unit PlaylistRes := do
  let uuid ← pl.dictGet "uuid" .null
  let idv ← pl.dictGet "id" .null
  let idJ := Json.str (uuid.pyOr idv).pyStr
  let t1 ← pl.dictGet "title" .null
  let t2 ← pl.dictGet "name" .null
  let title := (t1.pyOr t2).pyOr (.str "Untitled Playlist")
  let cr ← pl.dictGet "creator" .null
  let creator ←
    if cr.isObj then (cr.pyOr (.obj [])).dictGet "name" .null
    else pure cr
  let desc ← pl.dictGet "description" .null
  let n1 ← pl.dictGet "numberOfTracks" .null
  let n2 ← pl.dictGet "numberOfItems" .null
  let cover ← get_cover_id pl included
  pure ⟨idJ, title, creator, desc, n1.pyOr n2, cover.getD .null⟩

/-- The filtered comprehension of `search_playlists` (lines 151–163): an
item is kept only when `pl.get('uuid') or pl.get('id')` is truthy. -/
def searchPlaylistsGo (included : Json) : List Json → Except Unit (List PlaylistRes)
  | [] => pure []
  | pl :: rest => do
    let uuid ← pl.dictGet "uuid" .null
    let idv ← pl.dictGet "id" .null
    if (uuid.pyOr idv).pyTruthy then do
      let r ← mkPlaylistRes included pl
      let rs ← searchPlaylistsGo included rest
      pure (r :: rs)
    else searchPlaylistsGo included rest

/-- The `items` list of the `search_playlists` endpoint: empty on a falsy
payload; otherwise the filtered comprehension over
`extract_items(result, 'playlists')` with the sideload table
`result.get('included', [])`. -/
def searchPlaylistsItems (result : Json) : Except Unit (List PlaylistRes) :=
  if ¬ result.pyTruthy then .ok []
  else
    let included := if result.isObj then result.getD "included" (.arr []) else .arr []
    searchPlaylistsGo included (extract_items result "playlists")

/-! ## `get_album_tracks` (search.py lines 171–229) -/

/-- `item.get('item', item) if isinstance(item, dict) else item`:
unwrap one nesting level. -/
def unwrapNested (item : Json) : Json :=
  if item.isObj then item.getD "item" item else item

/-- The track-number assignment of `get_album_tracks` (lines 193–197):
explicit `trackNumber`/`track_number` fields, else the wrapper `index`,
else `len(tracks) + 1` with `n` the count of already-accepted tracks. -/
def albumTrackNumber (n : Nat) (item track : Json) : Json :=
  let tn0 := (track.getD "trackNumber" .null).pyOr (track.getD "track_number" .null)
  let tn1 := if ¬ tn0.pyTruthy ∧ item.isObj then item.getD "index" .null else tn0
  if ¬ tn1.pyTruthy then Json.num ((n : Int) + 1) else tn1

/-- First filtering loop of `get_album_tracks` (lines 188–201): keep only
unwrapped items that are dicts carrying an `id`, recording the assigned
track number on a copy of the track.  The loop is total — no expression in
it can raise. -/
def albumCollect (n : Nat) : List Json → List Json
  | [] => []
  | item :: rest =>
    let track := unwrapNested item
    if track.isObj ∧ track.hasKey "id" then
      track.setKey "track_number" (albumTrackNumber n item track) :: albumCollect (n + 1) rest
    else albumCollect n rest

/-- The artist-name expression of `get_album_tracks` (line 211). -/
def albumTrackArtist (track : Json) : Except Unit Json :=
  if (track.getD "artist" .null).isObj then
    (track.getD "artist" (.obj [])).dictGet "name" (.str "Unknown")
  else if (track.getD "artists" .null).pyTruthy then do
    let a0 ← (track.getD "artists" (.arr [.obj []])).index0
    a0.dictGet "name" (.str "Unknown")
  else pure (.str "Unknown")

/-- The `TrackSearchResult(...)` construction of `get_album_tracks`
(lines 208–221) over one filtered track (always a dict with an `id`). -/
def mkAlbumTrack (albumId : Json) (track : Json) : Except Unit TrackRes := do
  let idv ← track.subscr "id"
  let title := track.getD "title" (.str "Unknown")
  let artist ← albumTrackArtist track
  let albRaw := track.getD "album" .null
  let album := if albRaw.isObj then albRaw.getD "title" .null else .null
  let trackNum := track.getD "track_number" .null
  let duration := track.getD "duration" .null
  let cover := if albRaw.isObj then albRaw.getD "cover" .null else .null
  let quality := track.getD "audioQuality" .null
  let trackNumber := track.getD "trackNumber" .null
  let aob := track.getD "album" (.obj [])
  let albumArtistCond ← aob.dictGet "artist" .null
  let albumArtist ←
    if albumArtistCond.pyTruthy then do
      let a ← aob.dictGet "artist" (.obj [])
      a.dictGet "name" .null
    else if (track.getD "artist" .null).isObj then
      (track.getD "artist" (.obj [])).dictGet "name" (.str "Unknown")
    else pure (.str "Unknown")
  let tidalArtistId ←
    if (track.getD "artist" .null).isObj then
      (track.getD "artist" (.obj [])).dictGet "id" .null
    else if (track.getD "artists" .null).pyTruthy then do
      let a0 ← (track.getD "artists" (.arr [.obj []])).index0
      a0.dictGet "id" .null
    else pure .null
  let tidalAlbumId :=
    if (track.getD "album" .null).isObj then (track.getD "album" (.obj [])).getD "id" .null
    else albumId
  pure ⟨idv, title, artist, album, trackNum, duration, cover, quality,
        trackNumber, albumArtist, tidalArtistId, tidalAlbumId⟩

/-- The `items` list of the `get_album_tracks` endpoint: falsy payload →
empty; one-step `{data, version}` unwrap; `result.get('items', [])` (or the
payload itself when it is not a dict) as raw item sequence; filter via
`albumCollect`; then the result-record comprehension. -/
def albumTracksItems (albumId : Json) (result0 : Json) : Except Unit (List TrackRes) :=
  if ¬ result0.pyTruthy then .ok []
  else
    let result :=
      if result0.isObj ∧ result0.hasKey "data" ∧ result0.hasKey "version" then
        result0.getD "data" .null
      else result0
    let rawJ := if result.isObj then result.getD "items" (.arr []) else result
    do
      let raw ← rawJ.iterList
      (albumCollect 0 raw).mapM (mkAlbumTrack albumId)

/-! ## `get_playlist_tracks` (search.py lines 231–364) -/

/-- The `for key in priority_keys: if key in src and src.get(key): ...; break`
loops of the playlist-info normalization (lines 261–269 and 282–285): first
priority key present with a truthy value. -/
def keyInTruthyFirst (src : Json) : List String → Except Unit (Option Json)
  | [] => pure none
  | k :: ks => do
    let p ← src.keyIn k
    if p then do
      let v ← src.dictGet k .null
      if v.pyTruthy then pure (some v) else keyInTruthyFirst src ks
    else keyInTruthyFirst src ks

/-- Normalized `playlist_info` built from a truthy playlist object
(lines 256–278). -/
def normalizeFromPi (playlistId : String) (pi : Json) : Except Unit Json := do
  let attrs := if pi.isObj then pi.getD "attributes" (.obj []) else .obj []
  let rels := if pi.isObj then pi.getD "relationships" (.obj []) else .obj []
  let cv1 ← keyInTruthyFirst attrs priorityKeys
  let coverVal ←
    match cv1 with
    | some v => pure (some v)
    | none => keyInTruthyFirst pi priorityKeys
  let uuid ← pi.dictGet "uuid" .null
  let idv ← pi.dictGet "id" .null
  let idJ := (uuid.pyOr idv).pyOr (.str playlistId)
  let an ← attrs.dictGet "name" .null
  let t1 ← pi.dictGet "title" .null
  let t2 ← pi.dictGet "name" .null
  let title := (an.pyOr t1).pyOr t2
  let ad ← attrs.dictGet "description" .null
  let d1 ← pi.dictGet "description" .null
  let descr := ad.pyOr d1
  let ni ← attrs.dictGet "numberOfItems" .null
  let n1 ← pi.dictGet "numberOfTracks" .null
  let n2 ← pi.dictGet "numberOfItems" .null
  let ntr := (ni.pyOr n1).pyOr n2
  let cover :=
    match coverVal with
    | some v => if v.pyTruthy then Json.str (pyStrip v.pyStr) else Json.null
    | none => Json.null
  pure (.obj [("id", idJ), ("title", title), ("description", descr),
              ("numberOfTracks", ntr), ("cover", cover), ("relationships", rels)])

/-- Normalized `playlist_info` built from the bare result dict when no
playlist object was found (lines 279–294). -/
def normalizeFromResult (playlistId : String) (result : Json) : Except Unit Json := do
  let coverVal ← keyInTruthyFirst result priorityKeys
  let uuid ← result.dictGet "uuid" .null
  let idJ := uuid.pyOr (.str playlistId)
  let t1 ← result.dictGet "title" .null
  let t2 ← result.dictGet "name" .null
  let title := t1.pyOr t2
  let descr ← result.dictGet "description" .null
  let n1 ← result.dictGet "numberOfTracks" .null
  let n2 ← result.dictGet "numberOfItems" .null
  let rels ← result.dictGet "relationships" (.obj [])
  let cover :=
    match coverVal with
    | some v => if v.pyTruthy then Json.str (pyStrip v.pyStr) else Json.null
    | none => Json.null
  pure (.obj [("id", idJ), ("title", title), ("description", descr),
              ("numberOfTracks", n1.pyOr n2), ("cover", cover), ("relationships", rels)])

/-- The `playlist_info` selection and normalization of `get_playlist_tracks`
(lines 244–294), for a dict result. -/
def playlistInfoOf (playlistId : String) (result : Json) : Except Unit Json := do
  let p1 ← result.dictGet "playlist" .null
  let p2 ← result.dictGet "info" .null
  let pi0 := p1.pyOr p2
  let dat ← result.dictGet "data" .null
  let pi :=
    if ¬ pi0.pyTruthy ∧ dat.isArr ∧ dat.pyTruthy then
      match dat with
      | .arr (x :: _) => x
      | _ => pi0
    else pi0
  if pi.pyTruthy then normalizeFromPi playlistId pi
  else normalizeFromResult playlistId result

/-- First truthy `href` among the `files` entries (lines 319–323), if any. -/
def hrefFirst : List Json → Except Unit (Option Json)
  | [] => pure none
  | f :: fs => do
    let href ← f.dictGet "href" .null
    if href.pyTruthy then pure (some href) else hrefFirst fs

/-- The `for inc in included` scan of the playlist-cover fallback
(lines 315–326): on the first id match, the first truthy `href`, else the
raw `cover_id`; no match leaves the cover unset. -/
def playlistRelScan (coverId : Json) : List Json → Except Unit (Option Json)
  | [] => pure none
  | inc :: rest => do
    let incId ← inc.dictGet "id" .null
    if incId.pyStr = coverId.pyStr then do
      let attrsInc := if inc.isObj then inc.getD "attributes" (.obj []) else .obj []
      let files ← attrsInc.dictGet "files" .null
      let fl ← (files.pyOr (.arr [])).iterList
      let h ← hrefFirst fl
      match h with
      | some v => pure (some v)
      | none => pure (some coverId)
    else playlistRelScan coverId rest

/-- Body of the `try` block of the playlist-cover fallback (lines 310–326):
only a list-shaped `relationships.coverArt.data` is consulted here. -/
def playlistRelCoverE (result : Json) (included : Json) : Except Unit (Option Json) := do
  let rel := if result.isObj then result.getD "relationships" (.obj []) else .obj []
  let ca ← rel.dictGet "coverArt" .null
  let coverRel ←
    if ca.pyTruthy then pure ca
    else do
      let ca2 ← rel.dictGet "coverart" .null
      if ca2.pyTruthy then pure ca2 else rel.dictGet "thumbnailArt" .null
  let coverData := if coverRel.isObj then coverRel.getD "data" .null else .null
  match coverData with
  | .arr (x :: _) => do
    let coverId ← x.dictGet "id" .null
    let incs ← included.iterList
    playlistRelScan coverId incs
  | _ => pure none

/-- The cover fallback applied to a built `playlist_info` (lines 307–328),
with the `try/except: pass` absorption. -/
def applyCoverFallback (result : Json) (included : Json) (pinfo : Json) : Json :=
  if pinfo.pyTruthy ∧ ¬ (pinfo.getD "cover" .null).pyTruthy then
    match playlistRelCoverE result included with
    | .ok (some v) => pinfo.setKey "cover" v
    | _ => pinfo
  else pinfo

/-- The raw item sequence of `get_playlist_tracks` (lines 246–305), prior to
iteration. -/
def playlistRawItems (result : Json) : Except Unit Json := do
  if result.isObj then
    if result.hasKey "items" then result.dictGet "items" (.arr [])
    else do
      let tr ← result.dictGet "tracks" .null
      if result.hasKey "tracks" ∧ tr.isObj then tr.dictGet "items" (.arr [])
      else if tr.isArr then result.dictGet "tracks" (.arr [])
      else do
        let dat ← result.dictGet "data" .null
        if dat.isArr then pure dat else pure (.arr [])
  else if result.isArr then pure result
  else pure (.arr [])

/-- The track-number assignment of `get_playlist_tracks` (lines 339–341):
explicit fields, else the wrapper `index`, else `idx + 1` with `idx` the
item's 0-based `enumerate` position in the raw item sequence. -/
def playlistTrackNumber (idx : Nat) (item track : Json) : Json :=
  let tn0 := ((track.getD "trackNumber" .null).pyOr (track.getD "track_number" .null)).pyOr
    (if item.isObj then item.getD "index" .null else .null)
  if ¬ tn0.pyTruthy then Json.num ((idx : Int) + 1) else tn0

/-- The per-item track loop of `get_playlist_tracks` (lines 330–352),
carrying the `enumerate` index (which advances on skipped items too). -/
def playlistTracksGo (idx : Nat) : List Json → Except Unit (List TrackRes)
  | [] => pure []
  | item :: rest => do
    let track := unwrapNested item
    if ¬ track.isObj ∨ ¬ track.hasKey "id" then playlistTracksGo (idx + 1) rest
    else do
      let albRaw := track.getD "album" .null
      let albumData := if albRaw.isObj then albRaw else .obj []
      let artRaw := track.getD "artist" .null
      let artistData ←
        if artRaw.isObj then pure artRaw
        else if (track.getD "artists" .null).pyTruthy then
          (track.getD "artists" (.arr [.obj []])).index0
        else pure (.obj [])
      let tn := playlistTrackNumber idx item track
      let idv ← track.subscr "id"
      let title := track.getD "title" (.str "Unknown")
      let artist ← artistData.dictGet "name" (.str "Unknown")
      let album := if albumData.pyTruthy then albumData.getD "title" .null else .null
      let duration := track.getD "duration" .null
      let cover :=
        if albumData.pyTruthy then albumData.getD "cover" .null
        else match track.getD "cover" .null with
          | .str s => Json.str s
          | _ => Json.null
      let quality := track.getD "audioQuality" .null
      let rest' ← playlistTracksGo (idx + 1) rest
      pure (⟨idv, title, artist, album, tn, duration, cover, quality,
             .null, .null, .null, .null⟩ :: rest')

/-- The full `get_playlist_tracks` endpoint over an already-fetched payload:
the normalized playlist info (when the result is a dict) and the track
list.  A falsy payload yields `(none, [])` (the router's
`{"items": [], "playlist": None}`). -/
def getPlaylistTracks (playlistId : String) (result0 : Json) :
    Except Unit (Option Json × List TrackRes) :=
  if ¬ result0.pyTruthy then .ok (none, [])
  else
    let result :=
      if result0.isObj ∧ result0.hasKey "data" ∧ result0.hasKey "version" then
        result0.getD "data" .null
      else result0
    let included := if result.isObj then result.getD "included" (.arr []) else .arr []
    do
      let pinfo ←
        if result.isObj then do
          let p ← playlistInfoOf playlistId result
          pure (some (applyCoverFallback result included p))
        else pure none
      let rawJ ← playlistRawItems result
      let raw ← rawJ.iterList
      let tracks ← playlistTracksGo 0 raw
      pure (pinfo, tracks)

/-! ## `get_artist` (search.py lines 365–547): album extraction and sort -/

/-- `is_album_like` (lines 379–381): a dict with `id` and `title`. -/
def is_album_like (j : Json) : Bool :=
  j.isObj ∧ j.hasKey "id" ∧ j.hasKey "title"

/-- A canonical album record of the artist endpoint
(`{'id', 'title', 'year', 'cover', 'numberOfTracks'}`). -/
structure AlbumRec where
  id : Json
  title : Json
  year : Json
  cover : Json
  numberOfTracks : Json
deriving Repr

/-- The `year` expression of the nested-descent construction (line 410):
`album.get('releaseDate', '').split('-')[0] if album.get('releaseDate')
else (album.get('year') or '')`. -/
def albumYearNested (album : Json) : Except Unit Json :=
  if (album.getD "releaseDate" .null).pyTruthy then do
    let s ← pySplitDashHead (album.getD "releaseDate" (.str ""))
    pure (.str s)
  else pure ((album.getD "year" .null).pyOr (.str ""))

/-- The `year` expression of the flat-items and direct-endpoint
constructions (lines 424 and 468): the `else` arm is the bare empty
string — no fallback to a literal `year` field. -/
def albumYearFlat (album : Json) : Except Unit Json :=
  if (album.getD "releaseDate" .null).pyTruthy then do
    let s ← pySplitDashHead (album.getD "releaseDate" (.str ""))
    pure (.str s)
  else pure (.str "")

/-- Album record built by the nested descent (lines 407–413). -/
def mkArtistAlbumNested (album : Json) : Except Unit AlbumRec := do
  let idv ← album.subscr "id"
  let title ← album.subscr "title"
  let year ← albumYearNested album
  pure ⟨idv, title, year, album.getD "cover" .null, album.getD "numberOfTracks" .null⟩

/-- Album record built by the flat-items fallback and the direct-albums
endpoint (lines 421–427 and 465–471). -/
def mkArtistAlbumFlat (album : Json) : Except Unit AlbumRec := do
  let idv ← album.subscr "id"
  let title ← album.subscr "title"
  let year ← albumYearFlat album
  pure ⟨idv, title, year, album.getD "cover" .null, album.getD "numberOfTracks" .null⟩

/-- The deeply nested descent `albums.rows[].modules[].pagedList.items[]`
(lines 391–413); list-shaped items are skipped before unwrapping. -/
def nestedAlbumsOf (albumsData : Json) : Except Unit (List AlbumRec) := do
  let rows ← (albumsData.getD "rows" (.arr [])).iterList
  rows.foldlM (fun acc row => do
    if row.isObj then do
      let mods ← (row.getD "modules" (.arr [])).iterList
      mods.foldlM (fun acc2 m => do
        if m.isObj then do
          let pl := m.getD "pagedList" (.obj [])
          if pl.isObj then do
            let items ← (pl.getD "items" (.arr [])).iterList
            items.foldlM (fun acc3 item => do
              if item.isArr then pure acc3
              else do
                let album := unwrapNested item
                if is_album_like album then do
                  let r ← mkArtistAlbumNested album
                  pure (acc3 ++ [r])
                else pure acc3) acc2
          else pure acc2
        else pure acc2) acc
    else pure acc) []

/-- The flat `albums.items` fallback (lines 416–427), tried when the nested
descent produced nothing. -/
def flatAlbumsOf (albumsData : Json) : Except Unit (List AlbumRec) := do
  let items ← (albumsData.getD "items" (.arr [])).iterList
  items.foldlM (fun acc item => do
    let album := unwrapNested item
    if is_album_like album then do
      let r ← mkArtistAlbumFlat album
      pure (acc ++ [r])
    else pure acc) []

/-- Albums from the artist-page payload (lines 387–427): nested descent,
then flat fallback, both only when `albums` is a dict. -/
def artistAlbumsFromPage (artistInfo : Json) : Except Unit (List AlbumRec) := do
  let albumsData ← artistInfo.dictGet "albums" (.obj [])
  if albumsData.isObj then do
    let nested ← nestedAlbumsOf albumsData
    if nested.isEmpty then flatAlbumsOf albumsData else pure nested
  else pure []

/-- Albums from the direct-albums endpoint payload (lines 460–471). -/
def directAlbumsOf (directAlbums : Json) : Except Unit (List AlbumRec) := do
  let rawJ := if directAlbums.isObj then directAlbums.getD "items" (.arr []) else directAlbums
  let raw ← rawJ.iterList
  raw.foldlM (fun acc item => do
    let album := unwrapNested item
    if is_album_like album then do
      let r ← mkArtistAlbumFlat album
      pure (acc ++ [r])
    else pure acc) []

/-- `get_album_timestamp` (lines 475–479): the year parsed as an integer,
with falsy or unparsable years as 0 (`int(True)` is 1; `int()` of a
composite raises and is absorbed to 0 by the bare `except`). -/
def get_album_timestamp (album : AlbumRec) : Int :=
  let y := album.year
  if ¬ y.pyTruthy then 0
  else
    match y with
    | .str s => (pyIntOfStr s).getD 0
    | .num n => n
    | .bool b => if b then 1 else 0
    | _ => 0

/-- Stable insertion into a descending-sorted list: the new element goes
after every element whose key is greater than or equal to its own. -/
def insertDescBy {α : Type} (key : α → Int) (a : α) : List α → List α
  | [] => [a]
  | b :: bs => if key a ≤ key b then b :: insertDescBy key a bs else a :: b :: bs

/-- `l.sort(key=key, reverse=True)`: Python's sort is stable, and any stable
descending sort computes the same list, so it is modelled by stable
insertion. -/
def sortDescBy {α : Type} (key : α → Int) (l : List α) : List α :=
  l.foldl (fun acc a => insertDescBy key a acc) []

/-- `albums.sort(key=get_album_timestamp, reverse=True)` (line 481). -/
def sortAlbumsDesc (l : List AlbumRec) : List AlbumRec :=
  sortDescBy get_album_timestamp l

/-- The full album list of the artist endpoint: page albums, the
direct-endpoint fallback when empty (guarded by a truthy payload), and the
final descending year sort. -/
def artistAlbums (artistInfo : Json) (directAlbums : Json) : Except Unit (List AlbumRec) := do
  let fromPage ← artistAlbumsFromPage artistInfo
  let albums ←
    if fromPage.isEmpty then
      if directAlbums.pyTruthy then directAlbumsOf directAlbums else pure []
    else pure fromPage
  pure (sortAlbumsDesc albums)

/-! ## `find_artist_object_recursive` (search.py lines 488–504) -/

/-- The match test of the recursive locator (line 492): an object carrying
an `id` whose string form equals the (stringified) target and a `name`
key. -/
def isArtistMatch (tgt : String) (j : Json) : Bool :=
  j.hasKey "id" ∧ (j.getD "id" .null).pyStr = tgt ∧ j.hasKey "name"

mutual

/-- `find_artist_object_recursive(data, target_id)` with the target already
stringified (the source re-stringifies the constant target at each node).
A falsy recursive result does not short-circuit (`if res: return res`). -/
def findArtistObj (tgt : String) : Json → Option Json
  | .obj kvs =>
    if isArtistMatch tgt (.obj kvs) then some (.obj kvs)
    else findArtistKVs tgt kvs
  | .arr xs => findArtistList tgt xs
  | _ => none

/-- Recursion over `data.values()` (lines 496–498). -/
def findArtistKVs (tgt : String) : List (String × Json) → Option Json
  | [] => none
  | (_, v) :: rest =>
    match findArtistObj tgt v with
    | some r => if r.pyTruthy then some r else findArtistKVs tgt rest
    | none => findArtistKVs tgt rest

/-- Recursion over list elements (lines 500–503). -/
def findArtistList (tgt : String) : List Json → Option Json
  | [] => none
  | v :: rest =>
    match findArtistObj tgt v with
    | some r => if r.pyTruthy then some r else findArtistList tgt rest
    | none => findArtistList tgt rest

end

mutual

/-- All dict nodes of a value in depth-first preorder (a dict before its
values; arrays contribute their elements in order). -/
def dictNodes : Json → List Json
  | .obj kvs => .obj kvs :: dictNodesKVs kvs
  | .arr xs => dictNodesList xs
  | _ => []

/-- Preorder dict nodes of the values of a key-value list. -/
def dictNodesKVs : List (String × Json) → List Json
  | [] => []
  | (_, v) :: rest => dictNodes v ++ dictNodesKVs rest

/-- Preorder dict nodes of a list of values. -/
def dictNodesList : List Json → List Json
  | [] => []
  | v :: rest => dictNodes v ++ dictNodesList rest

end

/-- Concrete artist page whose albums carry years 2020, (none), 2022, 1999. -/
def c6Page : Json :=
  Json.obj [("albums", Json.obj [("rows", Json.arr [
    Json.obj [("modules", Json.arr [
      Json.obj [("pagedList", Json.obj [("items", Json.arr [
        Json.obj [("id", Json.num 1), ("title", Json.str "a"),
                  ("releaseDate", Json.str "2020-01-01")],
        Json.obj [("id", Json.num 2), ("title", Json.str "b")],
        Json.obj [("id", Json.num 3), ("title", Json.str "c"),
                  ("releaseDate", Json.str "2022-05-05")],
        Json.obj [("id", Json.num 4), ("title", Json.str "d"),
                  ("releaseDate", Json.str "1999")]])])]])]])])]

/-! ## Helper lemmas -/

/-- `getD` with any default returns the bound value when the key is
present. -/
theorem Json.getD_of_lookup (kvs : List (String × Json)) (k : String) (v d : Json)
    (h : Json.lookupKV kvs k = some v) : (Json.obj kvs).getD k d = v := by
  simp [Json.getD, h]

/-- A non-null `getD`-result does not depend on the chosen default. -/
theorem Json.getD_indep (a : Json) (k : String) (v : Json)
    (h : a.getD k .null = v) (hv : v ≠ .null) (d : Json) : a.getD k d = v := by
  cases a <;> simp [Json.getD] at h ⊢ <;> try exact absurd h.symm hv
  rename_i kvs
  cases hl : Json.lookupKV kvs k with
  | none => rw [hl] at h; simp at h; exact absurd h.symm hv
  | some w => rw [hl] at h; simpa [hl] using h

/-- Elements of a stable descending insertion are the new element or old
elements. -/
theorem mem_insertDescBy {α : Type} (key : α → Int) (a x : α) (l : List α)
    (h : x ∈ insertDescBy key a l) : x = a ∨ x ∈ l := by
  induction l with
  | nil => simpa [insertDescBy] using h
  | cons b bs ih =>
    by_cases hk : key a ≤ key b
    · simp [insertDescBy, hk] at h
      rcases h with h | h
      · exact Or.inr (by simp [h])
      · rcases ih h with h' | h'
        · exact Or.inl h'
        · exact Or.inr (by simp [h'])
    · simp [insertDescBy, hk] at h
      rcases h with h | h | h
      · exact Or.inl h
      · exact Or.inr (by simp [h])
      · exact Or.inr (by simp [h])

/-- Stable descending insertion preserves descending sortedness. -/
theorem pairwise_insertDescBy {α : Type} (key : α → Int) (a : α) (l : List α)
    (h : l.Pairwise (fun p q => key q ≤ key p)) :
    (insertDescBy key a l).Pairwise (fun p q => key q ≤ key p) := by
  induction l with
  | nil => simp [insertDescBy]
  | cons b bs ih =>
    rcases List.pairwise_cons.mp h with ⟨hb, hbs⟩
    by_cases hk : key a ≤ key b
    · simp only [insertDescBy, hk, if_pos]
      refine List.pairwise_cons.mpr ⟨?_, ih hbs⟩
      intro x hx
      rcases mem_insertDescBy key a x bs hx with h' | h'
      · simpa [h'] using hk
      · exact hb x h'
    · simp only [insertDescBy, hk, if_neg, not_false_iff]
      refine List.pairwise_cons.mpr ⟨?_, h⟩
      intro x hx
      rcases List.mem_cons.mp hx with h' | h'
      · subst h'; omega
      · exact le_trans (hb x h') (by omega)

/-- The stable descending sort yields a descending-sorted list. -/
theorem pairwise_sortDescBy_aux {α : Type} (key : α → Int) (l acc : List α)
    (h : acc.Pairwise (fun p q => key q ≤ key p)) :
    (l.foldl (fun acc a => insertDescBy key a acc) acc).Pairwise
      (fun p q => key q ≤ key p) := by
  induction l generalizing acc with
  | nil => simpa using h
  | cons x xs ih => exact ih (insertDescBy key x acc) (pairwise_insertDescBy key x acc h)

/-- `sortDescBy` always produces a list descending in the key. -/
theorem pairwise_sortDescBy {α : Type} (key : α → Int) (l : List α) :
    (sortDescBy key l).Pairwise (fun p q => key q ≤ key p) :=
  pairwise_sortDescBy_aux key l [] List.Pairwise.nil

/-- A node matching the locator's test is a non-empty dict, hence truthy. -/
theorem pyTruthy_of_isArtistMatch (tgt : String) (j : Json)
    (h : isArtistMatch tgt j = true) : j.pyTruthy = true := by
  cases j with
  | obj kvs =>
    cases kvs with
    | nil => simp [isArtistMatch, Json.hasKey, Json.lookupKV] at h
    | cons p rest => simp [Json.pyTruthy]
  | null => simp [isArtistMatch, Json.hasKey] at h
  | bool b => simp [isArtistMatch, Json.hasKey] at h
  | num n => simp [isArtistMatch, Json.hasKey] at h
  | str s => simp [isArtistMatch, Json.hasKey] at h
  | arr xs => simp [isArtistMatch, Json.hasKey] at h

mutual

/-- The locator equals the first match over the preorder dict-node list. -/
theorem findArtistObj_traversal (tgt : String) : (j : Json) →
    findArtistObj tgt j = (dictNodes j).find? (isArtistMatch tgt)
  | .obj kvs => by
    by_cases h : isArtistMatch tgt (.obj kvs)
    · simp [findArtistObj, dictNodes, h]
    · simp [findArtistObj, dictNodes, h, findArtistKVs_traversal tgt kvs]
  | .arr xs => by simp [findArtistObj, dictNodes, findArtistList_traversal tgt xs]
  | .null => by simp [findArtistObj, dictNodes]
  | .bool b => by simp [findArtistObj, dictNodes]
  | .num n => by simp [findArtistObj, dictNodes]
  | .str s => by simp [findArtistObj, dictNodes]

/-- Value-list version of `findArtistObj_traversal`. -/
theorem findArtistKVs_traversal (tgt : String) : (kvs : List (String × Json)) →
    findArtistKVs tgt kvs = (dictNodesKVs kvs).find? (isArtistMatch tgt)
  | [] => by simp [findArtistKVs, dictNodesKVs]
  | (k, v) :: rest => by
    have hv := findArtistObj_traversal tgt v
    have hr := findArtistKVs_traversal tgt rest
    simp only [findArtistKVs, dictNodesKVs, List.find?_append, ← hv, ← hr]
    cases hfv : findArtistObj tgt v with
    | none => simp
    | some r =>
      have hm : isArtistMatch tgt r = true := List.find?_some (hv ▸ hfv)
      simp [pyTruthy_of_isArtistMatch tgt r hm]

/-- List-elements version of `findArtistObj_traversal`. -/
theorem findArtistList_traversal (tgt : String) : (xs : List Json) →
    findArtistList tgt xs = (dictNodesList xs).find? (isArtistMatch tgt)
  | [] => by simp [findArtistList, dictNodesList]
  | v :: rest => by
    have hv := findArtistObj_traversal tgt v
    have hr := findArtistList_traversal tgt rest
    simp only [findArtistList, dictNodesList, List.find?_append, ← hv, ← hr]
    cases hfv : findArtistObj tgt v with
    | none => simp
    | some r =>
      have hm : isArtistMatch tgt r = true := List.find?_some (hv ▸ hfv)
      simp [pyTruthy_of_isArtistMatch tgt r hm]

end

/-- Inversion of a successful `Except` bind. -/
theorem exceptBindOk {α β : Type} (e : Except Unit α) (f : α → Except Unit β) (b : β)
    (h : e >>= f = .ok b) : ∃ a, e = .ok a ∧ f a = .ok b := by
  cases e with
  | error u => simp [Bind.bind, Except.bind] at h
  | ok a => exact ⟨a, rfl, by simpa [Bind.bind, Except.bind] using h⟩

/-! ## Claim C1 -/

/-- C1: the claim says an id-less unwrapped item is dropped from every
track-producing endpoint and never aborts the sequence.  This holds for the
album- and playlist-track endpoints (each keeps exactly the id-bearing item
of the two-item input), but `search_tracks` subscripts `track['id']` with no
guard, so one id-less item aborts the whole request instead of being
dropped (with `extract_items` modelled from the spec, which does not
filter). -/
theorem c1_idless_item_handling :
    searchTracksItems (Json.obj [("tracks", Json.obj [("items", Json.arr
      [Json.obj [("id", Json.num 1), ("title", Json.str "A")],
       Json.obj [("title", Json.str "B")]])])]) = .error () ∧
    (albumTracksItems (Json.num 7) (Json.obj [("items", Json.arr
      [Json.obj [("id", Json.num 1), ("title", Json.str "A")],
       Json.obj [("title", Json.str "B")]])])).map List.length = .ok 1 ∧
    (getPlaylistTracks "p" (Json.obj [("items", Json.arr
      [Json.obj [("id", Json.num 1), ("title", Json.str "A")],
       Json.obj [("title", Json.str "B")]])])).map (fun pr => pr.2.length) = .ok 1 :=
  ⟨rfl, rfl, rfl⟩

/-! ## Claim C3 -/

/-- C3: relationship-tier cover resolution: `relationships.coverArt` (also
`coverart`/`thumbnailArt`), reference id from a single reference object or
the head of a reference list, sideload lookup by stringified id; a `files`
list yields the first truthy `href`, otherwise the raw resource id (also
when no sideloaded resource matches); missing intermediate keys at every
level yield `None` rather than an error; and the playlist-detail endpoint
resolves its playlist cover through the same mechanism. -/
theorem c3_relationship_cover_resolution :
    get_cover_id
      (Json.obj [("relationships", Json.obj [("coverArt",
        Json.obj [("data", Json.arr [Json.obj [("id", Json.str "42")]])])])])
      (Json.arr [Json.obj [("id", Json.str "42"),
        ("attributes", Json.obj [("files", Json.arr [Json.obj [("href", Json.str "u")]])])]])
      = .ok (some (Json.str "u")) ∧
    get_cover_id
      (Json.obj [("relationships", Json.obj [("coverArt",
        Json.obj [("data", Json.obj [("id", Json.str "42")])])])])
      (Json.arr [Json.obj [("id", Json.str "42"),
        ("attributes", Json.obj [("files", Json.arr [Json.obj [("href", Json.str "u")]])])]])
      = .ok (some (Json.str "u")) ∧
    get_cover_id
      (Json.obj [("relationships", Json.obj [("coverArt",
        Json.obj [("data", Json.arr [Json.obj [("id", Json.str "7")]])])])])
      (Json.arr [Json.obj [("id", Json.str "7")]])
      = .ok (some (Json.str "7")) ∧
    get_cover_id
      (Json.obj [("relationships", Json.obj [("coverArt",
        Json.obj [("data", Json.arr [Json.obj [("id", Json.str "42")]])])])])
      (Json.arr [])
      = .ok (some (Json.str "42")) ∧
    get_cover_id (Json.obj [("title", Json.str "t")]) (Json.arr []) = .ok none ∧
    get_cover_id (Json.obj [("relationships", Json.obj [])]) (Json.arr []) = .ok none ∧
    get_cover_id (Json.obj [("relationships", Json.obj [("coverArt", Json.obj [])])])
      (Json.arr []) = .ok none ∧
    get_cover_id (Json.obj [("relationships", Json.obj [("coverArt",
      Json.obj [("data", Json.arr [])])])]) (Json.arr []) = .ok none ∧
    (getPlaylistTracks "pid" (Json.obj
      [("playlist", Json.obj [("uuid", Json.str "p-1")]),
       ("relationships", Json.obj [("coverArt",
         Json.obj [("data", Json.arr [Json.obj [("id", Json.str "42")]])])]),
       ("included", Json.arr [Json.obj [("id", Json.str "42"),
         ("attributes", Json.obj [("files", Json.arr [Json.obj [("href", Json.str "u")]])])]])])).map
      (fun pr => (pr.1.getD (Json.obj [])).getD "cover" Json.null) = .ok (Json.str "u") :=
  ⟨rfl, rfl, rfl, rfl, rfl, rfl, rfl, rfl, rfl⟩

/-! ## Claim C6 -/

/-- C6: every album list produced by the artist endpoint comes out sorted
descending by the year parsed as an integer; falsy or unparsable years parse
as 0 and therefore sort last; on years `["2020","","2022","1999"]` the
output order is `["2022","2020","1999",""]`. -/
theorem c6_albums_sorted_desc_by_year :
    (∀ artistInfo direct albums, artistAlbums artistInfo direct = .ok albums →
      albums.Pairwise (fun a b => get_album_timestamp b ≤ get_album_timestamp a)) ∧
    get_album_timestamp ⟨Json.null, Json.null, Json.str "", Json.null, Json.null⟩ = 0 ∧
    get_album_timestamp ⟨Json.null, Json.null, Json.str "20x2", Json.null, Json.null⟩ = 0 ∧
    (artistAlbums c6Page Json.null).map (fun l => l.map AlbumRec.year) =
      .ok [Json.str "2022", Json.str "2020", Json.str "1999", Json.str ""] := by
  refine ⟨?_, rfl, rfl, rfl⟩
  intro ai d albums h
  rw [artistAlbums] at h
  rcases exceptBindOk _ _ _ h with ⟨fp, _, h2⟩
  dsimp only at h2
  have key : ∀ (e : Except Unit (List AlbumRec)),
      (e >>= fun y => pure (sortAlbumsDesc y)) = .ok albums →
      albums.Pairwise (fun a b => get_album_timestamp b ≤ get_album_timestamp a) := by
    intro e he
    rcases exceptBindOk _ _ _ he with ⟨a0, _, h3⟩
    have hs : sortAlbumsDesc a0 = albums := by simpa [pure, Except.pure] using h3
    rw [← hs, sortAlbumsDesc]
    exact pairwise_sortDescBy get_album_timestamp a0
  split at h2
  · split at h2
    · exact key _ h2
    · exact key _ h2
  · exact key _ h2

/-- Witness for C6's universally quantified part at the concrete artist
page. -/
theorem c6_albums_sorted_desc_by_year_witness :
    artistAlbums c6Page Json.null = .ok
      [⟨Json.num 3, Json.str "c", Json.str "2022", Json.null, Json.null⟩,
       ⟨Json.num 1, Json.str "a", Json.str "2020", Json.null, Json.null⟩,
       ⟨Json.num 4, Json.str "d", Json.str "1999", Json.null, Json.null⟩,
       ⟨Json.num 2, Json.str "b", Json.str "", Json.null, Json.null⟩] ∧
    List.Pairwise (fun a b => get_album_timestamp b ≤ get_album_timestamp a)
      [⟨Json.num 3, Json.str "c", Json.str "2022", Json.null, Json.null⟩,
       ⟨Json.num 1, Json.str "a", Json.str "2020", Json.null, Json.null⟩,
       ⟨Json.num 4, Json.str "d", Json.str "1999", Json.null, Json.null⟩,
       ⟨Json.num 2, Json.str "b", Json.str "", Json.null, Json.null⟩] :=
  ⟨rfl, c6_albums_sorted_desc_by_year.1 c6Page Json.null _ rfl⟩

/-! ## Claim C8 -/

/-- C8: the recursive locator is a depth-first traversal returning the first
node in traversal order that is a dict with a string-equal `id` and a `name`
key, `none` when no such node exists, and it resolves the nested concrete
example to the `{id: "9", name: "Q"}` object. -/
theorem c8_recursive_locator :
    (∀ tgt j, findArtistObj tgt j = (dictNodes j).find? (isArtistMatch tgt)) ∧
    findArtistObj "9" (Json.obj [("albums", Json.obj [("rows", Json.arr [
      Json.obj [("modules", Json.arr [
        Json.obj [("pagedList", Json.obj [("items", Json.arr [
          Json.obj [("artist",
            Json.obj [("id", Json.str "9"), ("name", Json.str "Q")])]])])]])]])])])
      = some (Json.obj [("id", Json.str "9"), ("name", Json.str "Q")]) :=
  ⟨fun tgt j => findArtistObj_traversal tgt j, rfl⟩

/-! ## Claim C2 -/

/-- C2: playlist cover resolution is a first-match-wins priority chain:
attribute tier first (keys in priority order), then the same keys at top
level, then the relationship tier; an earlier tier's hit short-circuits the
later tiers; `attributes.squareImage = "sq"` beats top-level
`image = "im"`. -/
theorem c2_cover_priority_chain :
    (∀ pl included v, attrTier (attrsOfPl pl) = .ok (some v) →
      get_cover_id pl included = .ok (some v)) ∧
    (∀ pl included v, attrTier (attrsOfPl pl) = .ok none → rootTier pl = .ok (some v) →
      get_cover_id pl included = .ok (some v)) ∧
    (∀ pl included, attrTier (attrsOfPl pl) = .ok none → rootTier pl = .ok none →
      get_cover_id pl included = .ok (relTier pl included)) ∧
    get_cover_id (Json.obj [("attributes", Json.obj [("squareImage", Json.str "sq")]),
      ("image", Json.str "im")]) (Json.arr []) = .ok (some (Json.str "sq")) := by
  refine ⟨?_, ?_, ?_, rfl⟩
  · intro pl included v h
    simp [get_cover_id, h, Bind.bind, Except.bind, pure, Except.pure]
  · intro pl included v h1 h2
    simp [get_cover_id, h1, h2, Bind.bind, Except.bind, pure, Except.pure]
  · intro pl included h1 h2
    simp [get_cover_id, h1, h2, Bind.bind, Except.bind, pure, Except.pure]

/-- Witness for C2 at a concrete item carrying both an attribute-tier and a
root-tier candidate, with a non-empty sideload table. -/
theorem c2_cover_priority_chain_witness :
    attrTier (attrsOfPl (Json.obj [("attributes", Json.obj [("squareImage", Json.str "sq")]),
      ("image", Json.str "im")])) = .ok (some (Json.str "sq")) ∧
    get_cover_id (Json.obj [("attributes", Json.obj [("squareImage", Json.str "sq")]),
      ("image", Json.str "im")]) (Json.arr [Json.num 0]) = .ok (some (Json.str "sq")) :=
  ⟨rfl, c2_cover_priority_chain.1 _ _ _ rfl⟩

/-! ## Claim C10 -/

/-- C10: the playlist-search identity filter tests truthiness, not
presence: an item with no `uuid` and a falsy `id` (`0` or `""`) is excluded
even though it carries an `id` key. -/
theorem c10_playlist_truthiness_filter :
    (∀ kvs included rest, ¬ ((Json.lookupKV kvs "uuid").getD .null).pyTruthy →
        ¬ ((Json.lookupKV kvs "id").getD .null).pyTruthy →
        searchPlaylistsGo included (Json.obj kvs :: rest) = searchPlaylistsGo included rest) ∧
    searchPlaylistsItems (Json.obj [("playlists", Json.obj [("items", Json.arr
      [Json.obj [("id", Json.num 0), ("title", Json.str "A")]])])]) = .ok [] ∧
    searchPlaylistsItems (Json.obj [("playlists", Json.obj [("items", Json.arr
      [Json.obj [("id", Json.str ""), ("title", Json.str "B")]])])]) = .ok [] := by
  refine ⟨?_, rfl, rfl⟩
  intro kvs included rest h1 h2
  simp [searchPlaylistsGo, Json.dictGet, Bind.bind, Except.bind, Json.pyOr, h1, h2]

/-- Witness for C10's universally quantified part at an item with a falsy
`id` of `0`. -/
theorem c10_playlist_truthiness_filter_witness :
    ¬ ((Json.lookupKV [("id", Json.num 0)] "uuid").getD .null).pyTruthy ∧
    ¬ ((Json.lookupKV [("id", Json.num 0)] "id").getD .null).pyTruthy ∧
    searchPlaylistsGo (Json.arr []) [Json.obj [("id", Json.num 0)]] =
      searchPlaylistsGo (Json.arr []) [] :=
  ⟨by decide, by decide,
   c10_playlist_truthiness_filter.1 [("id", Json.num 0)] (Json.arr []) []
     (by decide) (by decide)⟩

/-! ## Claim C9 -/

/-- C9 counterexample: a track with neither `artist` nor `artists` gets the
display name `"Unknown"`, not `"Unknown Artist"` as the claim states. -/
theorem c9_counterexample :
    (albumTracksItems (Json.num 1) (Json.obj [("items", Json.arr
      [Json.obj [("id", Json.num 1), ("title", Json.str "T")]])])).map
      (fun l => l.map TrackRes.artist) = .ok [Json.str "Unknown"] ∧
    Json.str "Unknown" ≠ Json.str "Unknown Artist" :=
  ⟨rfl, by simp⟩

/-- C9 (amended): in album-track reconciliation the artist name is the
nested `artist.name` when `artist` is a dict, else the first element of a
truthy `artists` list's `name`, else the literal `"Unknown"`; in track
search the `artists` list is never consulted — the name is `artist.name`
when `artist` is a dict (default `"Unknown"`), and `"Unknown"` whenever the
`artist` key is absent, regardless of any `artists` list. -/
theorem c9_artist_name_fallback_amended :
    (∀ t akvs v, t.getD "artist" .null = Json.obj akvs →
      Json.lookupKV akvs "name" = some v → albumTrackArtist t = .ok v) ∧
    (∀ t bkvs brest v, ¬ (t.getD "artist" .null).isObj →
      t.getD "artists" .null = Json.arr (Json.obj bkvs :: brest) →
      Json.lookupKV bkvs "name" = some v → albumTrackArtist t = .ok v) ∧
    (∀ t, ¬ (t.getD "artist" .null).isObj → ¬ (t.getD "artists" .null).pyTruthy →
      albumTrackArtist t = .ok (Json.str "Unknown")) ∧
    (∀ kvs, Json.lookupKV kvs "artist" = none →
      searchTrackArtist (Json.obj kvs) = .ok (Json.str "Unknown")) ∧
    (∀ kvs akvs v, Json.lookupKV kvs "artist" = some (Json.obj akvs) →
      Json.lookupKV akvs "name" = some v →
      searchTrackArtist (Json.obj kvs) = .ok v) := by
  refine ⟨?_, ?_, ?_, ?_, ?_⟩
  · intro t akvs v h1 h2
    have h1' := Json.getD_indep t "artist" (Json.obj akvs) h1 (by simp) (Json.obj [])
    simp [albumTrackArtist, h1, h1', Json.isObj, Json.dictGet, h2]
  · intro t bkvs brest v h1 h2 h3
    have h2' := Json.getD_indep t "artists" (Json.arr (Json.obj bkvs :: brest)) h2
      (by simp) (Json.arr [Json.obj []])
    simp [albumTrackArtist, h1, h2, h2', Json.index0, Json.dictGet, h3,
      Bind.bind, Except.bind, Json.pyTruthy]
  · intro t h1 h2
    simp [albumTrackArtist, h1, h2, pure, Except.pure]
  · intro kvs h
    simp [searchTrackArtist, Json.dictGet, h, Bind.bind, Except.bind, Json.lookupKV]
  · intro kvs akvs v h1 h2
    simp [searchTrackArtist, Json.dictGet, h1, h2, Bind.bind, Except.bind]

/-- Witness for C9's amended fallback clauses at concrete tracks. -/
theorem c9_artist_name_fallback_amended_witness :
    ¬ (((Json.obj [("id", Json.num 3)]).getD "artist" .null)).isObj ∧
    ¬ (((Json.obj [("id", Json.num 3)]).getD "artists" .null)).pyTruthy ∧
    albumTrackArtist (Json.obj [("id", Json.num 3)]) = .ok (Json.str "Unknown") :=
  ⟨by decide, by decide,
   c9_artist_name_fallback_amended.2.2.1 (Json.obj [("id", Json.num 3)])
     (by decide) (by decide)⟩

/-! ## Claim C4 -/

/-- C4 counterexample: in the playlist endpoint the final track-number
fallback is the 1-based position in the *raw* item sequence, not in the
extracted sequence: with a skipped first raw item, the first extracted
track gets number 2, where the claim requires 1. -/
theorem c4_counterexample :
    (getPlaylistTracks "p" (Json.obj [("items", Json.arr
      [Json.str "x", Json.obj [("id", Json.num 1), ("title", Json.str "T")]])])).map
      (fun pr => pr.2.map TrackRes.track_number) = .ok [Json.num 2] ∧
    Json.num 2 ≠ Json.num 1 :=
  ⟨rfl, by simp⟩

/-- C4 (amended): track numbers fall back in priority order — explicit
field, wrapper `index`, then a positional fallback that always yields a
value; the positional fallback is the 1-based position in the extracted
(filtered) sequence for the album endpoint, but the 1-based `enumerate`
position in the raw item sequence for the playlist endpoint (skipped items
still advance it). -/
theorem c4_track_number_fallback_amended :
    (∀ n item track,
      ¬ ((track.getD "trackNumber" .null).pyOr (track.getD "track_number" .null)).pyTruthy →
      ¬ (if item.isObj then item.getD "index" .null else Json.null).pyTruthy →
      albumTrackNumber n item track = Json.num ((n : Int) + 1)) ∧
    (∀ n item track,
      ¬ ((track.getD "trackNumber" .null).pyOr (track.getD "track_number" .null)).pyTruthy →
      item.isObj → (item.getD "index" .null).pyTruthy →
      albumTrackNumber n item track = item.getD "index" .null) ∧
    (∀ idx item track,
      ¬ ((track.getD "trackNumber" .null).pyOr (track.getD "track_number" .null)).pyTruthy →
      ¬ (if item.isObj then item.getD "index" .null else Json.null).pyTruthy →
      playlistTrackNumber idx item track = Json.num ((idx : Int) + 1)) ∧
    (albumTracksItems (Json.num 1) (Json.obj [("items", Json.arr
      [Json.obj [("item", Json.obj [("id", Json.num 9), ("title", Json.str "A")]),
                 ("index", Json.num 3), ("type", Json.str "track")]])])).map
      (fun l => l.map TrackRes.track_number) = .ok [Json.num 3] ∧
    (albumTracksItems (Json.num 1) (Json.obj [("items", Json.arr
      [Json.str "x", Json.obj [("id", Json.num 5), ("title", Json.str "B")]])])).map
      (fun l => l.map TrackRes.track_number) = .ok [Json.num 1] ∧
    (getPlaylistTracks "q" (Json.obj [("items", Json.arr
      [Json.str "y", Json.obj [("id", Json.num 6), ("title", Json.str "C")]])])).map
      (fun pr => pr.2.map TrackRes.track_number) = .ok [Json.num 2] := by
  refine ⟨?_, ?_, ?_, rfl, rfl, rfl⟩
  · intro n item track h1 h2
    by_cases hio : item.isObj
    · simp only [hio, if_true] at h2
      simp [albumTrackNumber, h1, hio, h2]
    · simp [albumTrackNumber, h1, hio]
  · intro n item track h1 hio h2
    simp [albumTrackNumber, h1, hio, h2]
  · intro idx item track h1 h2
    have h1' : (((track.getD "trackNumber" Json.null).pyOr
        (track.getD "track_number" Json.null)).pyOr
        (if item.isObj then item.getD "index" Json.null else Json.null)) =
        (if item.isObj then item.getD "index" Json.null else Json.null) := by
      rw [Json.pyOr]
      simp [h1]
    simp only [playlistTrackNumber]
    rw [h1']
    simp [h2]

/-- Witness for C4's amended positional-fallback clauses at concrete
items. -/
theorem c4_track_number_fallback_amended_witness :
    ¬ (((Json.obj [("id", Json.num 1)]).getD "trackNumber" .null).pyOr
        ((Json.obj [("id", Json.num 1)]).getD "track_number" .null)).pyTruthy ∧
    ¬ (if (Json.obj [("id", Json.num 1)]).isObj then
        (Json.obj [("id", Json.num 1)]).getD "index" .null else Json.null).pyTruthy ∧
    playlistTrackNumber 1 (Json.obj [("id", Json.num 1)]) (Json.obj [("id", Json.num 1)]) =
      Json.num 2 :=
  ⟨by decide, by decide,
   c4_track_number_fallback_amended.2.2.1 1 (Json.obj [("id", Json.num 1)])
     (Json.obj [("id", Json.num 1)]) (by decide) (by decide)⟩

/-! ## Claim C7 -/

/-- C7 counterexample: on the flat `albums.items` fallback path, an album
with no `releaseDate` but a literal `year: "1999"` gets year `""` — the
literal `year` fallback exists only on the nested-descent path. -/
theorem c7_counterexample :
    (artistAlbums (Json.obj [("albums", Json.obj [("items", Json.arr
      [Json.obj [("id", Json.num 1), ("title", Json.str "T"),
                 ("year", Json.str "1999")]])])]) Json.null).map
      (fun l => l.map AlbumRec.year) = .ok [Json.str ""] ∧
    Json.str "" ≠ Json.str "1999" :=
  ⟨rfl, by simp⟩

/-- C7 (amended): every constructed album's year is the prefix of
`releaseDate` before the first dash when `releaseDate` is truthy (all three
construction sites); when it is not, the nested-descent site falls back to
the literal `year` field (else `""`), while the flat-items and
direct-endpoint sites always use `""`; no site ever produces a null
year. -/
theorem c7_album_year_derivation_amended :
    (∀ a s, a.getD "releaseDate" .null = Json.str s → (Json.str s).pyTruthy →
      albumYearNested a = .ok (Json.str (splitDashHead s)) ∧
      albumYearFlat a = .ok (Json.str (splitDashHead s))) ∧
    (∀ a, ¬ (a.getD "releaseDate" .null).pyTruthy →
      albumYearNested a = .ok ((a.getD "year" .null).pyOr (Json.str "")) ∧
      albumYearFlat a = .ok (Json.str "")) ∧
    (∀ a y, albumYearNested a = .ok y → y ≠ Json.null) ∧
    (∀ a y, albumYearFlat a = .ok y → y ≠ Json.null) := by
  refine ⟨?_, ?_, ?_, ?_⟩
  · intro a s h ht
    have h' := Json.getD_indep a "releaseDate" (Json.str s) h (by simp) (Json.str "")
    constructor <;>
      simp [albumYearNested, albumYearFlat, h, h', ht, pySplitDashHead,
        Bind.bind, Except.bind, pure, Except.pure]
  · intro a h
    constructor <;> simp [albumYearNested, albumYearFlat, h, pure, Except.pure]
  · intro a y h
    by_cases hrd : (a.getD "releaseDate" Json.null).pyTruthy
    · rw [albumYearNested] at h
      simp only [hrd, if_true] at h
      cases hsp : pySplitDashHead (a.getD "releaseDate" (Json.str "")) with
      | error e => rw [hsp] at h; simp [Bind.bind, Except.bind] at h
      | ok s =>
        rw [hsp] at h
        simp [Bind.bind, Except.bind, pure, Except.pure] at h
        rw [← h]
        simp
    · rw [albumYearNested] at h
      simp only [hrd, if_false, Bool.false_eq_true, pure, Except.pure] at h
      have h' : (a.getD "year" Json.null).pyOr (Json.str "") = y := by
        simpa using h
      rw [← h', Json.pyOr]
      by_cases hy : (a.getD "year" Json.null).pyTruthy
      · simp only [hy, if_true]
        intro he
        rw [he] at hy
        simp [Json.pyTruthy] at hy
      · simp [hy]
  · intro a y h
    by_cases hrd : (a.getD "releaseDate" Json.null).pyTruthy
    · rw [albumYearFlat] at h
      simp only [hrd, if_true] at h
      cases hsp : pySplitDashHead (a.getD "releaseDate" (Json.str "")) with
      | error e => rw [hsp] at h; simp [Bind.bind, Except.bind] at h
      | ok s =>
        rw [hsp] at h
        simp [Bind.bind, Except.bind, pure, Except.pure] at h
        rw [← h]
        simp
    · rw [albumYearFlat] at h
      simp only [hrd, if_false, Bool.false_eq_true] at h
      have h' : (Json.str "") = y := by simpa [pure, Except.pure] using h
      rw [← h']
      simp

/-- Witness for C7's amended clauses at concrete albums with and without
`releaseDate`. -/
theorem c7_album_year_derivation_amended_witness :
    ((Json.obj [("releaseDate", Json.str "2020-01-02")]).getD "releaseDate" .null =
      Json.str "2020-01-02") ∧
    (Json.str "2020-01-02").pyTruthy ∧
    albumYearNested (Json.obj [("releaseDate", Json.str "2020-01-02")]) =
      .ok (Json.str (splitDashHead "2020-01-02")) ∧
    ¬ ((Json.obj [("year", Json.str "1999")]).getD "releaseDate" .null).pyTruthy ∧
    albumYearNested (Json.obj [("year", Json.str "1999")]) =
      .ok (((Json.obj [("year", Json.str "1999")]).getD "year" .null).pyOr (Json.str "")) ∧
    albumYearFlat (Json.obj [("year", Json.str "1999")]) = .ok (Json.str "") :=
  ⟨rfl, by decide,
   (c7_album_year_derivation_amended.1 (Json.obj [("releaseDate", Json.str "2020-01-02")])
     "2020-01-02" rfl (by decide)).1,
   by decide,
   (c7_album_year_derivation_amended.2.1 (Json.obj [("year", Json.str "1999")])
     (by decide)).1,
   (c7_album_year_derivation_amended.2.1 (Json.obj [("year", Json.str "1999")])
     (by decide)).2⟩

/-! ## Claim C5 -/

/-- `pyOr` never yields null when its second operand is not null. -/
theorem Json.pyOr_ne_null (a b : Json) (hb : b ≠ Json.null) : a.pyOr b ≠ Json.null := by
  rw [Json.pyOr]
  by_cases ha : a.pyTruthy
  · simp only [ha, if_true]
    intro he
    rw [he] at ha
    simp [Json.pyTruthy] at ha
  · simp [ha, hb]

/-- C5 counterexample: the playlist-detail endpoint copies `uuid ?? id`
into the normalized playlist object without stringifying it: a playlist
object `{id: 7}` yields canonical id `7` (a number), where the claim
requires the string `"7"`. -/
theorem c5_counterexample :
    (getPlaylistTracks "p-9" (Json.obj [("playlist", Json.obj [("id", Json.num 7),
      ("title", Json.str "X")])])).map
      (fun pr => (pr.1.getD (Json.obj [])).getD "id" Json.null) = .ok (Json.num 7) ∧
    Json.num 7 ≠ Json.str "7" :=
  ⟨rfl, by simp⟩

/-- C5 (amended): in playlist search every emitted playlist's id is the
string form of `uuid ?? id` (an input with only `uuid: "p-1"` yields the
string `"p-1"`); in the playlist-detail endpoint the normalized playlist
object's id is the raw, unstringified `uuid ?? id` value with a final
fallback to the request's playlist id, and it is never null. -/
theorem c5_playlist_id_normalization_amended :
    (∀ kvs included r, mkPlaylistRes included (Json.obj kvs) = .ok r →
      r.id = Json.str (((Json.lookupKV kvs "uuid").getD .null).pyOr
        ((Json.lookupKV kvs "id").getD .null)).pyStr) ∧
    (searchPlaylistsItems (Json.obj [("playlists", Json.obj [("items", Json.arr
      [Json.obj [("uuid", Json.str "p-1"), ("title", Json.str "M")]])])])).map
      (fun l => l.map PlaylistRes.id) = .ok [Json.str "p-1"] ∧
    (∀ pid kvs pinfo, normalizeFromPi pid (Json.obj kvs) = .ok pinfo →
      pinfo.getD "id" .null = (((Json.lookupKV kvs "uuid").getD .null).pyOr
        ((Json.lookupKV kvs "id").getD .null)).pyOr (Json.str pid)) ∧
    (∀ pid kvs pinfo, normalizeFromPi pid (Json.obj kvs) = .ok pinfo →
      pinfo.getD "id" .null ≠ Json.null) := by
  have hc : ∀ pid kvs pinfo, normalizeFromPi pid (Json.obj kvs) = .ok pinfo →
      pinfo.getD "id" .null = (((Json.lookupKV kvs "uuid").getD .null).pyOr
        ((Json.lookupKV kvs "id").getD .null)).pyOr (Json.str pid) := by
    intro pid kvs pinfo h
    rw [normalizeFromPi] at h
    simp only [Json.dictGet, Bind.bind, Except.bind, pure, Except.pure, Json.isObj] at h
    repeat' split at h
    all_goals first
      | (cases h; rfl)
      | simp at h
  refine ⟨?_, rfl, hc, ?_⟩
  · intro kvs included r h
    rw [mkPlaylistRes] at h
    simp only [Json.dictGet, Bind.bind, Except.bind, pure, Except.pure] at h
    split at h
    all_goals try split at h
    all_goals try split at h
    all_goals first
      | (cases h; rfl)
      | simp at h
  · intro pid kvs pinfo h
    rw [hc pid kvs pinfo h]
    exact Json.pyOr_ne_null _ _ (by simp)

/-- Witness for C5's amended clauses at a playlist item carrying only a
`uuid`, and a detail payload carrying only an integer `id`. -/
theorem c5_playlist_id_normalization_amended_witness :
    mkPlaylistRes (Json.arr []) (Json.obj [("uuid", Json.str "p-1")]) =
      .ok ⟨Json.str "p-1", Json.str "Untitled Playlist", Json.null, Json.null,
           Json.null, Json.null⟩ ∧
    (⟨Json.str "p-1", Json.str "Untitled Playlist", Json.null, Json.null,
      Json.null, Json.null⟩ : PlaylistRes).id =
      Json.str (((Json.lookupKV [("uuid", Json.str "p-1")] "uuid").getD .null).pyOr
        ((Json.lookupKV [("uuid", Json.str "p-1")] "id").getD .null)).pyStr ∧
    normalizeFromPi "p-9" (Json.obj [("id", Json.num 7)]) =
      .ok (Json.obj [("id", Json.num 7), ("title", Json.null), ("description", Json.null),
        ("numberOfTracks", Json.null), ("cover", Json.null), ("relationships", Json.obj [])]) ∧
    (Json.obj [("id", Json.num 7), ("title", Json.null), ("description", Json.null),
      ("numberOfTracks", Json.null), ("cover", Json.null),
      ("relationships", Json.obj [])]).getD "id" .null ≠ Json.null :=
  ⟨rfl,
   c5_playlist_id_normalization_amended.1 [("uuid", Json.str "p-1")] (Json.arr [])
     ⟨Json.str "p-1", Json.str "Untitled Playlist", Json.null, Json.null,
      Json.null, Json.null⟩ rfl,
   rfl,
   c5_playlist_id_normalization_amended.2.2.2 "p-9" [("id", Json.num 7)]
     (Json.obj [("id", Json.num 7), ("title", Json.null), ("description", Json.null),
       ("numberOfTracks", Json.null), ("cover", Json.null),
       ("relationships", Json.obj [])]) rfl⟩
